import Mathlib

/-!
Verification of the challenge-resolution engine of the Qim reCaptcha/Turnstile
solver: the Turnstile frame-status state machine (content script,
`TurnstileSolver`), the target locator over DOM/shadow-DOM/iframes, and the
audio transcription pipeline of the background service worker
(validation, two-tier cache, Wit.ai client with retries, answer
normalization).  JavaScript values are embedded shallowly: strings as
`String`, byte buffers as `List Nat`, DOM trees as an inductive rose tree,
network effects as explicit oracles, and object state as records passed
explicitly.
-/

set_option maxHeartbeats 1000000

/-! ## String helpers: JS `String.prototype.includes` and `toLowerCase` -/

/-- Source `pat.isPrefixOf l || ...` scan: does the character list `l` contain
`pat` as a contiguous subsequence?  Models JS `String.prototype.includes`. -/
def listContainsSeq (pat : List Char) : List Char → Bool
  | [] => pat.isEmpty
  | c :: rest => pat.isPrefixOf (c :: rest) || listContainsSeq pat rest

/-- JS `s.includes(pat)`. -/
def strIncludes (s pat : String) : Bool :=
  listContainsSeq pat.toList s.toList

/-- JS `toLowerCase` on a single character.  `Char.toLower` covers the ASCII
range; the accented letters appearing in the spoken-digit maps are handled
explicitly so that the model agrees with JS on every input the maps can
match. -/
def jsLowerChar (c : Char) : Char :=
  if c = 'Ü' then 'ü'
  else if c = 'É' then 'é'
  else c.toLower

/-- JS `String.prototype.toLowerCase`. -/
def jsToLower (s : String) : String :=
  String.mk (s.toList.map jsLowerChar)

/-- JS `String.prototype.trim`: strip leading and trailing whitespace. -/
def jsTrim (s : String) : String :=
  String.mk
    (((s.toList.dropWhile Char.isWhitespace).reverse.dropWhile
        Char.isWhitespace).reverse)

/-! ## Turnstile frame-status state machine (content script, `TurnstileSolver`)

`getFrameStatus` reads `window.innerWidth/innerHeight`, `location.href`,
`document.body.innerText` and the presence of a content-indicator selector
(`.ctp-checkbox-container, input[type="checkbox"], .cb-lb, #challenge-stage`).
These observations are bundled in `FrameMetrics`; the mutable field
`this.stabilizationAttempts` is passed and returned explicitly. -/

/-- The status values returned by `TurnstileSolver.getFrameStatus`. -/
inductive Status where
  | WAITING
  | READY
  | FATAL
deriving Repr, DecidableEq

/-- The signals `getFrameStatus` reads from the frame. -/
structure FrameMetrics where
  width : Nat
  height : Nat
  href : String
  bodyText : String
  /-- whether `document.querySelector` finds any of the content-indicator
  selectors -/
  hasContent : Bool
deriving Repr, DecidableEq

namespace TurnstileSolver

/-- Source `this.maxStabilizationAttempts` from the constructor. -/
def maxStabilizationAttempts : Nat := 20

/-- Source `this.maxAttempts` from the constructor. -/
def maxAttempts : Nat := 30

/-- Step B of `getFrameStatus`: the URL signals an explicit failure path
(`/failure`, `/error` or `error=`) and is not a retry-after-failure path. -/
def urlFailureSignal (href : String) : Bool :=
  (strIncludes href "/failure" || strIncludes href "/error" ||
      strIncludes href "error=") &&
    !(strIncludes href "failure_retry")

/-- Step C of `getFrameStatus`: `bodyText.match(/Error|400 Bad Request|400070/i)`,
modelled as case-insensitive substring containment of the three
alternatives. -/
def errorTextSignal (bodyText : String) : Bool :=
  let lower := jsToLower bodyText
  strIncludes lower "error" || strIncludes lower "400 bad request" ||
    strIncludes lower "400070"

/-- Source `TurnstileSolver.getFrameStatus`, with `this.stabilizationAttempts`
threaded explicitly; returns the classified status and the updated counter. -/
def getFrameStatus (m : FrameMetrics) (stabilizationAttempts : Nat) :
    Status × Nat :=
  let isStandardWidget := decide (150 < m.width) && decide (50 ≤ m.height)
  if !isStandardWidget && urlFailureSignal m.href then
    (.FATAL, stabilizationAttempts)
  else if !isStandardWidget && errorTextSignal m.bodyText then
    (.FATAL, stabilizationAttempts)
  else if m.width < 50 ∨ m.height < 50 then
    if m.hasContent then (.READY, stabilizationAttempts)
    else if stabilizationAttempts < maxStabilizationAttempts then
      (.WAITING, stabilizationAttempts + 1)
    else (.READY, stabilizationAttempts)
  else (.READY, 0)

/-- Result of the `n`-th periodic classification (`n ≥ 1`) of one frame whose
metrics stay fixed, starting from a fresh solver
(`stabilizationAttempts = 0`).  `pollN m 0` is the conventional pre-start
state. -/
def pollN (m : FrameMetrics) : Nat → Status × Nat
  | 0 => (.WAITING, 0)
  | n + 1 => getFrameStatus m (pollN m n).2

end TurnstileSolver

/-! ## `TurnstileSolver.check`: the periodic solve loop

`check()` observes the execution context (`isCloudflareFrame`,
`document.readyState`), classifies the frame, and — when the status is
`READY`, the widget is not yet solved and the attempt budget is not
exhausted — runs one `solve()` step.  `solve()` first re-checks the hidden
token (`isSolved()`); otherwise it increments `this.attempts`, locates a
target and clicks it (marking solved) or falls back to a blind click.
`API_CONFIG.enabled` is the constant `false` in the source, so the API
branch of `check()` is never taken.  DOM side effects (borders, clicks) are
outside the state; the returned `Bool` records whether `solve()` was
invoked on this tick. -/

/-- The mutable fields of the `TurnstileSolver` instance. -/
structure TSolverState where
  attempts : Nat
  solved : Bool
  active : Bool
  stabilizationAttempts : Nat
  failureLogged : Bool
deriving Repr, DecidableEq

/-- What one `check()` tick observes from the page. -/
structure CheckEnv where
  /-- Source `isCloudflareFrame()`: hostname includes `challenges.cloudflare.com` -/
  inCloudflareFrame : Bool
  /-- Source `document.readyState` is `complete` or `interactive` -/
  docLoaded : Bool
  metrics : FrameMetrics
  /-- Source `isSolved()`: hidden token input filled, or success text/icon present -/
  domSolved : Bool
  /-- Source `findTarget()` returned an element (vs. the blind-click fallback) -/
  targetFound : Bool
deriving Repr, DecidableEq

namespace TurnstileSolver

/-- The fresh solver constructed by `new TurnstileSolver()`. -/
def initSolver : TSolverState :=
  { attempts := 0, solved := false, active := false,
    stabilizationAttempts := 0, failureLogged := false }

/-- Source `TurnstileSolver.solve()`, restricted to its effect on the solver state:
an early `isSolved()` hit marks solved without consuming an attempt;
otherwise the attempt counter is incremented and a located target is
clicked and marked solved (a blind click leaves `solved` untouched). -/
def solve (env : CheckEnv) (st : TSolverState) : TSolverState :=
  if env.domSolved then { st with solved := true }
  else
    let st2 := { st with attempts := st.attempts + 1 }
    if env.targetFound then { st2 with solved := true } else st2

/-- Source `TurnstileSolver.check()`: one poll tick.  Returns the updated state and
whether `solve()` was invoked. -/
def check (env : CheckEnv) (st : TSolverState) : TSolverState × Bool :=
  if !env.inCloudflareFrame then (st, false)
  else if !env.docLoaded then (st, false)
  else
    match getFrameStatus env.metrics st.stabilizationAttempts with
    | (Status.FATAL, stab2) =>
      ({ st with stabilizationAttempts := stab2, failureLogged := true }, false)
    | (Status.WAITING, stab2) =>
      ({ st with stabilizationAttempts := stab2 }, false)
    | (_, stab2) =>
      let st2 := { st with stabilizationAttempts := stab2,
                           failureLogged := false, active := true }
      if !st2.solved && st2.attempts < maxAttempts then (solve env st2, true)
      else (st2, false)

/-- A whole sequence of poll ticks on one widget instance. -/
def runChecks (envs : List CheckEnv) (st : TSolverState) : TSolverState :=
  envs.foldl (fun s e => (check e s).1) st

end TurnstileSolver

/-! ## Target locator (`TurnstileSolver.findTarget` / `findInShadow`)

The DOM is a rose tree.  Each element carries the set of selectors it
matches (selectors are abstracted to indices into the prioritized list),
its computed visibility (`display`/`visibility`/`opacity` collapsed to one
flag, as `isVisible` consumes them), an optional shadow root, an optional
iframe content document (`some none` = cross-origin, unreadable), and its
light-DOM children.  `querySelector` searches the light DOM of one root in
document order and never pierces shadow roots or iframes, matching browser
semantics relied on by the source. -/

/-- A DOM element.  `hasShadow` models the truthiness of `el.shadowRoot`
(`shadow` is its child forest and is meaningful only when `hasShadow`);
`isFrame` marks `<iframe>` elements, `frameReadable` whether
`contentDocument` can be read (cross-origin access throws), and `frameDoc`
is the readable content document's element forest. -/
inductive El where
  | mk (sels : List Nat) (visible : Bool) (hasShadow : Bool)
      (shadow : List El) (isFrame : Bool) (frameReadable : Bool)
      (frameDoc : List El) (children : List El)

/-- Selectors matched by this element. -/
def El.sels : El → List Nat
  | .mk s _ _ _ _ _ _ _ => s

/-- Source `isVisible(el)`. -/
def El.visible : El → Bool
  | .mk _ v _ _ _ _ _ _ => v

/-- Truthiness of `el.shadowRoot`. -/
def El.hasShadow : El → Bool
  | .mk _ _ h _ _ _ _ _ => h

/-- The shadow root's child forest. -/
def El.shadow : El → List El
  | .mk _ _ _ sh _ _ _ _ => sh

/-- Whether this element is an `<iframe>`. -/
def El.isFrame : El → Bool
  | .mk _ _ _ _ f _ _ _ => f

/-- Whether the iframe's content document can be read (same origin). -/
def El.frameReadable : El → Bool
  | .mk _ _ _ _ _ r _ _ => r

/-- The readable content document's element forest. -/
def El.frameDoc : El → List El
  | .mk _ _ _ _ _ _ d _ => d

/-- Light-DOM children. -/
def El.children : El → List El
  | .mk _ _ _ _ _ _ _ c => c

namespace TurnstileSolver

mutual

/-- Source `root.querySelector(sel)` restricted to the subtree of one element:
first match in document order (the element itself, then its light-DOM
descendants).  `querySelector` never pierces shadow roots or iframes. -/
def queryEl (sel : Nat) : El → Option El
  | e@(.mk sels _ _ _ _ _ _ children) =>
    if sels.contains sel then some e else queryList sel children

/-- Source `querySelector` over a forest (the children of a document, shadow root
or element), in document order. -/
def queryList (sel : Nat) : List El → Option El
  | [] => none
  | e :: es =>
    match queryEl sel e with
    | some x => some x
    | none => queryList sel es

end

/-- The `for (const sel of selectors) { const el = root.querySelector(sel);
if (el && this.isVisible(el)) return el; }` loop: selectors in priority
order, visibility checked on the first match of each selector. -/
def queryVisible (selectors : List Nat) (doc : List El) : Option El :=
  match selectors with
  | [] => none
  | s :: rest =>
    match queryList s doc with
    | some el => if el.visible then some el else queryVisible rest doc
    | none => queryVisible rest doc

/-- Source `findInShadow(root, selectors)`: a `TreeWalker` visits every element
below the root in document order; each visited element owning a shadow root
is probed (`shadowRoot.querySelector` per selector, visibility-checked) and
the shadow tree is searched recursively before the walk continues. -/
def findInShadow (selectors : List Nat) : List El → Option El
  | [] => none
  | .mk _ _ hasShadow sh _ _ _ children :: es =>
    match
      (if hasShadow then
        match queryVisible selectors sh with
        | some x => some x
        | none => findInShadow selectors sh
      else none) with
    | some x => some x
    | none =>
      match findInShadow selectors children with
      | some x => some x
      | none => findInShadow selectors es

/-- Source `document.querySelectorAll('iframe')`: all iframe elements of the light
DOM, in document order. -/
def collectIframes : List El → List El
  | [] => []
  | e@(.mk _ _ _ _ isFrame _ _ children) :: es =>
    (if isFrame then [e] else []) ++ collectIframes children ++
      collectIframes es

/-- Tier 3 of `findTarget`: for each nested iframe, try to read its content
document; cross-origin frames throw and are skipped silently (the `catch`
is empty).  A readable document is searched by selector query and then by
shadow traversal. -/
def searchIframes (selectors : List Nat) : List El → Option El
  | [] => none
  | .mk _ _ _ _ _ frameReadable fdoc _ :: fs =>
    if frameReadable then
      match queryVisible selectors fdoc with
      | some x => some x
      | none =>
        match findInShadow selectors fdoc with
        | some x => some x
        | none => searchIframes selectors fs
    else searchIframes selectors fs

/-- Source `TurnstileSolver.findTarget()`: (1) direct `document.querySelector` per
selector, (2) deep shadow-DOM traversal from `document.body`, (3) nested
iframes (readable ones only).  `none` is the `NotFound` outcome the caller
turns into a blind click. -/
def findTarget (selectors : List Nat) (doc : List El) : Option El :=
  match queryVisible selectors doc with
  | some x => some x
  | none =>
    match findInShadow selectors doc with
    | some x => some x
    | none => searchIframes selectors (collectIframes doc)

/-- An invisible wrapper element that matches no selector and hosts a
shadow root with the given forest. -/
def shadowHost (inner : List El) : El :=
  El.mk [] true true inner false false [] []

/-- A document whose only selector-matching element sits inside a shadow
root nested two levels deep. -/
def twoDeepShadowDoc (e : El) : List El :=
  [shadowHost [shadowHost [e]]]

/-- A document containing a single cross-origin iframe (content document
unreadable) and nothing else. -/
def crossOriginDoc : List El :=
  [El.mk [] true false [] true false [] []]

end TurnstileSolver

/-! ## Background service worker: transcription pipeline

Audio buffers are byte lists.  The two network effects are explicit: the
audio download is abstracted away (the pipeline takes the downloaded bytes
directly) and the Wit.ai speech API is an oracle from the attempt number to
a fetch outcome.  The pipeline result carries the number of speech-API
requests issued, so "no second network call" is a provable statement. -/

namespace CONFIG

/-- Source `CONFIG.maxRetries`. -/
def maxRetries : Nat := 3

/-- Source `CONFIG.retryDelay` (ms). -/
def retryDelay : Nat := 1000

/-- Source `CONFIG.cacheExpiration` (ms): 24 hours. -/
def cacheExpiration : Nat := 1000 * 60 * 60 * 24

/-- Source `CONFIG.minAudioSize` (bytes). -/
def minAudioSize : Nat := 100

/-- Source `CONFIG.maxMemoryCacheSize`. -/
def maxMemoryCacheSize : Nat := 50

end CONFIG

namespace AudioValidator

/-- Source `AudioValidator.validate`: rejects empty buffers and buffers below
`CONFIG.minAudioSize`.  The MP3 header inspection (ID3 tag or frame sync)
only chooses between log lines — an unrecognized header logs a warning and
the function still returns `true` — so every sufficiently large buffer
validates. -/
def validate (arrayBuffer : List Nat) : Except String Unit :=
  if arrayBuffer.length = 0 then .error "Empty audio buffer"
  else if arrayBuffer.length < CONFIG.minAudioSize then
    .error "Audio buffer too small"
  else .ok ()

end AudioValidator

/-- A cached transcript with its creation time (`{ text, timestamp }`). -/
structure CacheEntry where
  text : String
  timestamp : Nat
deriving Repr, DecidableEq

/-- Audio content digest.  `CacheService.generateHash` computes SHA-256 of
the raw bytes; the development relies only on the digest being a
deterministic function of the bytes alone, so the hash is modelled as the
byte content itself. -/
abbrev Digest := List Nat

/-- Source `CacheService.generateHash(buffer)`. -/
def generateHash (buffer : List Nat) : Digest := buffer

/-- The in-memory LRU map, as an association list in insertion order
(head = least recently used), plus the durable `chrome.storage.local`
tier. -/
structure CacheState where
  mem : List (Digest × CacheEntry)
  storage : List (Digest × CacheEntry)
deriving Repr, DecidableEq

namespace MemoryCache

/-- Source `MemoryCache.get`: a hit moves the entry to the most-recent end. -/
def get (key : Digest) (cache : List (Digest × CacheEntry)) :
    Option CacheEntry × List (Digest × CacheEntry) :=
  match List.lookup key cache with
  | none => (none, cache)
  | some v => (some v, cache.filter (fun p => !(p.1 == key)) ++ [(key, v)])

/-- Source `MemoryCache.set`: delete an existing binding, evict the oldest entry
when at capacity, then insert at the most-recent end. -/
def set (key : Digest) (value : CacheEntry)
    (cache : List (Digest × CacheEntry)) : List (Digest × CacheEntry) :=
  let c1 := cache.filter (fun p => !(p.1 == key))
  let c2 := if CONFIG.maxMemoryCacheSize ≤ c1.length then c1.tail else c1
  c2 ++ [(key, value)]

end MemoryCache

namespace CacheService

/-- Source `CacheService.get`: memory tier first; on a durable-tier hit within the
TTL the entry is hydrated into the memory tier, past the TTL it is purged.
Returns the cached text (if any) and the updated cache state. -/
def get (hash : Digest) (now : Nat) (st : CacheState) :
    Option String × CacheState :=
  match MemoryCache.get hash st.mem with
  | (some entry, mem2) => (some entry.text, { st with mem := mem2 })
  | (none, _) =>
    match List.lookup hash st.storage with
    | some entry =>
      if now - entry.timestamp < CONFIG.cacheExpiration then
        (some entry.text, { st with mem := MemoryCache.set hash entry st.mem })
      else
        (none,
         { st with storage := st.storage.filter (fun p => !(p.1 == hash)) })
    | none => (none, st)

/-- Source `CacheService.set`: refuses empty text, otherwise writes the entry to
both tiers (the durable write overwrites any binding for the same key). -/
def set (hash : Digest) (text : String) (now : Nat) (st : CacheState) :
    CacheState :=
  if text.length = 0 then st
  else
    let entry : CacheEntry := ⟨text, now⟩
    { mem := MemoryCache.set hash entry st.mem,
      storage := st.storage.filter (fun p => !(p.1 == hash)) ++
        [(hash, entry)] }

end CacheService

/-! ## Answer normalization (`TranslationService.normalize`) -/

/-- The character class of `token.replace(/[.,\/#!$%^&*;:{}=\-_`~()]/g, "")`.
Brace and backtick characters are written via `Char.ofNat` (123 = left
brace, 125 = right brace, 96 = backtick). -/
def punctChars : List Char :=
  ['.', ',', '/', '#', '!', '$', '%', '^', '&', '*', ';', ':',
   Char.ofNat 123, Char.ofNat 125, '=', '-', '_', Char.ofNat 96, '~', '(',
   ')']

/-- JS `lower.split(/\s+/)` applied to an already-trimmed string: the
maximal runs of non-whitespace characters (accumulator holds the current
run reversed). -/
def wsTokensAux : List Char → List Char → List (List Char)
  | [], acc => if acc = [] then [] else [acc.reverse]
  | c :: cs, acc =>
    if c.isWhitespace then
      if acc = [] then wsTokensAux cs [] else acc.reverse :: wsTokensAux cs []
    else wsTokensAux cs (c :: acc)

/-- JS `s.split(/\s+/)` for the trimmed strings `normalize` produces: the
empty string splits to `[""]`, otherwise to the whitespace-separated
tokens. -/
def splitWs (s : String) : List String :=
  if s = "" then [""]
  else (wsTokensAux s.toList []).map (fun l => String.mk l)

namespace TranslationService

/-- Source `TranslationService.NUMBER_MAP`: spoken digit words in four locales
(English, French, German, Spanish), each mapped to its digit string. -/
def NUMBER_MAP : List (String × String) :=
  [("zero", "0"), ("one", "1"), ("two", "2"), ("three", "3"), ("four", "4"),
   ("five", "5"), ("six", "6"), ("seven", "7"), ("eight", "8"),
   ("nine", "9"), ("ten", "10"),
   ("zéro", "0"), ("un", "1"), ("deux", "2"), ("trois", "3"),
   ("quatre", "4"), ("cinq", "5"), ("sept", "7"), ("huit", "8"),
   ("neuf", "9"), ("dix", "10"),
   ("null", "0"), ("eins", "1"), ("zwei", "2"), ("drei", "3"),
   ("vier", "4"), ("fünf", "5"), ("sechs", "6"), ("sieben", "7"),
   ("acht", "8"), ("neun", "9"), ("zehn", "10"),
   ("cero", "0"), ("uno", "1"), ("dos", "2"), ("tres", "3"),
   ("cuatro", "4"), ("cinco", "5"), ("seis", "6"), ("siete", "7"),
   ("ocho", "8"), ("nueve", "9"), ("diez", "10")]

/-- Source `token.replace(/[.,\/#!$%^&*;:{}=\-_`~()]/g, "")`. -/
def cleanToken (token : String) : String :=
  String.mk (token.toList.filter (fun c => !(decide (c ∈ punctChars))))

/-- Source `NUMBER_MAP[cleanToken] || cleanToken`. -/
def translateToken (token : String) : String :=
  let c := cleanToken token
  (List.lookup c NUMBER_MAP).getD c

/-- Source `/^\d+$/.test t`: a non-empty all-digit string. -/
def isDigitToken (t : String) : Bool :=
  !t.toList.isEmpty && t.toList.all Char.isDigit

/-- Source `TranslationService.normalize`: lower-case and trim; pure digit strings
are returned as-is; otherwise tokenize on whitespace, strip punctuation and
translate each token, then concatenate without separator when every token
became a digit string and join with single spaces otherwise. -/
def normalize (text : String) : String :=
  if text = "" then ""
  else
    let lower := jsTrim (jsToLower text)
    if isDigitToken lower then lower
    else
      let translated := (splitWs lower).map translateToken
      if translated.all isDigitToken then String.join translated
      else String.intercalate " " translated

/-- The spec's description of normalization, for the refinement claim:
"lower-case, tokenize on whitespace, strip punctuation per token, translate
any token matching a known spoken-digit word to its digit, and if all
tokens became digits, concatenate them with no separator, otherwise join
tokens with single spaces" — with no special case for pure-digit input. -/
def normalizeSpec (text : String) : String :=
  if text = "" then ""
  else
    let lower := jsTrim (jsToLower text)
    let translated := (splitWs lower).map translateToken
    if translated.all isDigitToken then String.join translated
    else String.intercalate " " translated

end TranslationService

/-! ## Wit.ai client (`WitClient`)

The speech API's NDJSON body is modelled at the granularity the parser
consumes it: a list of lines, each either a JSON object (with an optional
`text` field and an `is_final` marker) or malformed JSON on which only the
regex fallback can extract a `text` value. -/

/-- One line of the Wit.ai response body. -/
inductive WitChunk where
  | json (text : Option String) (isFinal : Bool)
  | malformed (textMatch : Option String)
deriving Repr, DecidableEq

/-- Outcome of one `fetch` to the speech API. -/
inductive FetchResult where
  | ok (lines : List WitChunk)
  | httpError (status : Nat) (body : String)
  | netError (msg : String)
deriving Repr, DecidableEq

namespace WitClient

/-- Scan of `parseResponse` from the last line to the first, over the
reversed line list: a line whose `text` is truthy and marked `is_final`
wins immediately; otherwise the first truthy `text` encountered (i.e. the
last in the body) is kept as candidate; the regex fallback fills the
candidate only when none is set. -/
def parseScan : List WitChunk → Option String → Option String
  | [], best => best
  | c :: rest, best =>
    match c with
    | .json (some t) isFinal =>
      if 0 < t.length then
        if isFinal then some t
        else parseScan rest (if best.isNone then some t else best)
      else parseScan rest best
    | .json none _ => parseScan rest best
    | .malformed (some t) =>
      if 0 < t.length && best.isNone then parseScan rest (some t)
      else parseScan rest best
    | .malformed none => parseScan rest best

/-- Source `WitClient.parseResponse`. -/
def parseResponse (lines : List WitChunk) : Option String :=
  parseScan lines.reverse none

/-- The body of one retry iteration of `WitClient.transcribe`: a non-2xx
response, a network error, or a response without usable text all surface as
the caught error; a parsed non-empty text is the successful result. -/
def attemptOnce (r : FetchResult) : Except String String :=
  match r with
  | .ok lines =>
    (match parseResponse lines with
     | some t =>
       if 0 < t.length then .ok t else .error "No valid text in response"
     | none => .error "No valid text in response")
  | .httpError status body =>
    .error ("Wit.ai API error: " ++ toString status ++ " - " ++ body)
  | .netError msg => .error msg

/-- The exhaustion error thrown after the final attempt. -/
def exhaustMsg (lastError : String) : String :=
  "Transcription failed after " ++ toString CONFIG.maxRetries ++
    " attempts: " ++ lastError

/-- The retry loop of `WitClient.transcribe`: `attempt` is the 1-based
attempt number, `remaining` the attempts still allowed.  Returns the
result, the number of fetches issued, and the list of backoff delays slept
between attempts (`CONFIG.retryDelay * attempt` after each failed
non-final attempt). -/
def transcribeGo (oracle : Nat → FetchResult) (attempt : Nat) :
    Nat → Except String String × Nat × List Nat
  | 0 => (.error (exhaustMsg ""), 0, [])
  | remaining + 1 =>
    match attemptOnce (oracle attempt) with
    | .ok text => (.ok text, 1, [])
    | .error e =>
      match remaining with
      | 0 => (.error (exhaustMsg e), 1, [])
      | r + 1 =>
        let rest := transcribeGo oracle (attempt + 1) (r + 1)
        (rest.1, rest.2.1 + 1, CONFIG.retryDelay * attempt :: rest.2.2)

/-- Source `WitClient.transcribe`: up to `CONFIG.maxRetries` fetches with
linear backoff; throws `exhaustMsg` once every attempt has failed. -/
def transcribe (oracle : Nat → FetchResult) :
    Except String String × Nat × List Nat :=
  transcribeGo oracle 1 CONFIG.maxRetries

end WitClient

/-! ## Pipeline and message responder -/

/-- Where a successful transcription came from. -/
inductive TranscriptSource where
  | cache
  | api
deriving Repr, DecidableEq

/-- The success payload of `processAudioPipeline` (the `duration` field is
wall-clock noise and is omitted). -/
structure PipelineOk where
  text : String
  source : TranscriptSource
deriving Repr, DecidableEq

/-- The API-path tail of `processAudioPipeline` (steps 4–6): transcribe,
reject empty raw or normalized text, normalize and cache. -/
def pipelineApiPath (hash : Digest) (now : Nat) (oracle : Nat → FetchResult)
    (st : CacheState) : Except String PipelineOk × CacheState × Nat :=
  match WitClient.transcribe oracle with
  | (.error e, calls, _) => (.error e, st, calls)
  | (.ok rawText, calls, _) =>
    if rawText.length = 0 then
      (.error "Transcription returned empty result", st, calls)
    else
      let finalText := TranslationService.normalize rawText
      if finalText.length = 0 then
        (.error "Normalization produced empty result", st, calls)
      else
        (.ok ⟨finalText, .api⟩, CacheService.set hash finalText now st, calls)

/-- Source `processAudioPipeline`, from the downloaded audio bytes on:
validate, digest, cache lookup (a truthy hit short-circuits), otherwise the
API path.  The final `Nat` counts speech-API fetches issued by this call. -/
def processAudioPipeline (bytes : List Nat) (now : Nat)
    (oracle : Nat → FetchResult) (st : CacheState) :
    Except String PipelineOk × CacheState × Nat :=
  match AudioValidator.validate bytes with
  | .error e => (.error e, st, 0)
  | .ok _ =>
    let hash := generateHash bytes
    match CacheService.get hash now st with
    | (some cachedText, st1) =>
      if 0 < cachedText.length then (.ok ⟨cachedText, .cache⟩, st1, 0)
      else pipelineApiPath hash now oracle st1
    | (none, st1) => pipelineApiPath hash now oracle st1

/-- The `{ success, text?, error? }` message the background responder sends
for a `transcribe` request. -/
structure TranscribeResponse where
  success : Bool
  text : Option String
  error : Option String
deriving Repr, DecidableEq

/-- The `transcribe` branch of the background `onMessage` listener: a
missing `audioUrl` or missing Wit.ai token fails fast; otherwise the
pipeline result is converted to `{ success: true, text }` or
`{ success: false, error }`. -/
def onMessageTranscribe (hasAudioUrl : Bool) (witAiToken : Option String)
    (bytes : List Nat) (now : Nat) (oracle : Nat → FetchResult)
    (st : CacheState) : TranscribeResponse × CacheState :=
  if !hasAudioUrl then
    ({ success := false, text := none,
       error := some "Missing audioUrl parameter" }, st)
  else
    match witAiToken with
    | none =>
      ({ success := false, text := none,
         error := some
           "Wit.ai Token is missing. Please configure the extension." }, st)
    | some _ =>
      match processAudioPipeline bytes now oracle st with
      | (.ok r, st2, _) =>
        ({ success := true, text := some r.text, error := none }, st2)
      | (.error e, st2, _) =>
        ({ success := false, text := none, error := some e }, st2)

/-! ## Theorems: stabilization state machine (C1–C3) -/

namespace TurnstileSolver

lemma getFrameStatus_small (m : FrameMetrics) (k : Nat)
    (hsize : m.width < 50 ∨ m.height < 50)
    (hurl : urlFailureSignal m.href = false)
    (htext : errorTextSignal m.bodyText = false)
    (hcontent : m.hasContent = false) :
    getFrameStatus m k =
      if k < maxStabilizationAttempts then (.WAITING, k + 1)
      else (.READY, k) := by
  have hstd : (decide (150 < m.width) && decide (50 ≤ m.height)) = false := by
    rcases hsize with h | h <;> (simp; omega)
  unfold getFrameStatus
  simp [hstd, hurl, htext, hcontent, if_pos hsize]

lemma pollN_small_le (m : FrameMetrics)
    (hsize : m.width < 50 ∨ m.height < 50)
    (hurl : urlFailureSignal m.href = false)
    (htext : errorTextSignal m.bodyText = false)
    (hcontent : m.hasContent = false) :
    ∀ n, n ≤ maxStabilizationAttempts → pollN m n = (.WAITING, n) := by
  intro n
  induction n with
  | zero => intro _; rfl
  | succ k ih =>
    intro hk
    have hk' : k ≤ maxStabilizationAttempts := Nat.le_of_succ_le hk
    have hlt : k < maxStabilizationAttempts := Nat.lt_of_succ_le hk
    show getFrameStatus m (pollN m k).2 = (.WAITING, k + 1)
    rw [ih hk', getFrameStatus_small m k hsize hurl htext hcontent,
      if_pos hlt]

lemma pollN_small_ge (m : FrameMetrics)
    (hsize : m.width < 50 ∨ m.height < 50)
    (hurl : urlFailureSignal m.href = false)
    (htext : errorTextSignal m.bodyText = false)
    (hcontent : m.hasContent = false) :
    ∀ n, maxStabilizationAttempts + 1 ≤ n →
      pollN m n = (.READY, maxStabilizationAttempts) := by
  intro n
  induction n with
  | zero => intro h; omega
  | succ k ih =>
    intro hk
    show getFrameStatus m (pollN m k).2 = (.READY, maxStabilizationAttempts)
    rcases Nat.lt_or_ge k (maxStabilizationAttempts + 1) with hlt | hge
    · have hk20 : k = maxStabilizationAttempts := by omega
      rw [pollN_small_le m hsize hurl htext hcontent k (by omega),
        getFrameStatus_small m k hsize hurl htext hcontent, hk20]
      simp
    · rw [ih hge, getFrameStatus_small m maxStabilizationAttempts hsize hurl
        htext hcontent]
      simp

/-- C1 (amended): a tiny frame (width < 50 or height < 50) with no
content-indicator match, whose URL and body text show none of the
failure/error signals, is classified `WAITING` with the stabilization
counter incremented on each of polls 1–20, and `READY` on poll 21 and every
later poll with the counter pinned at its maximum of 20. -/
theorem c1_stabilization_trace (m : FrameMetrics)
    (hsize : m.width < 50 ∨ m.height < 50)
    (hcontent : m.hasContent = false)
    (hurl : urlFailureSignal m.href = false)
    (htext : errorTextSignal m.bodyText = false) :
    (∀ n, 1 ≤ n → n ≤ 20 → pollN m n = (Status.WAITING, n)) ∧
      (∀ n, 21 ≤ n → pollN m n = (Status.READY, 20)) :=
  ⟨fun n _ h20 => pollN_small_le m hsize hurl htext hcontent n h20,
   fun n h21 => pollN_small_ge m hsize hurl htext hcontent n h21⟩

/-- Witness for C1's amended theorem at a concrete tiny frame. -/
theorem c1_stabilization_trace_witness :
    pollN ⟨0, 0, "https://challenges.cloudflare.com/", "Loading", false⟩ 1 =
        (Status.WAITING, 1) ∧
      pollN ⟨0, 0, "https://challenges.cloudflare.com/", "Loading", false⟩ 21 =
        (Status.READY, 20) :=
  ⟨(c1_stabilization_trace _ (by decide) (by decide) (by decide)
      (by decide)).1 1 (by decide) (by decide),
   (c1_stabilization_trace _ (by decide) (by decide) (by decide)
      (by decide)).2 21 (by decide)⟩

/-- C1 counterexample: a 0×0 frame with no content indicators whose body
text reads "Error" is classified `FATAL` on its very first poll, not
`WAITING` — the claim's universal statement omits the error-signal guards
that run before the dimension logic. -/
theorem c1_error_text_counterexample :
    (⟨0, 0, "https://challenges.cloudflare.com/", "Error", false⟩ :
        FrameMetrics).width < 50 ∧
      (⟨0, 0, "https://challenges.cloudflare.com/", "Error", false⟩ :
        FrameMetrics).hasContent = false ∧
      pollN ⟨0, 0, "https://challenges.cloudflare.com/", "Error", false⟩ 1 =
        (Status.FATAL, 0) ∧
      (pollN ⟨0, 0, "https://challenges.cloudflare.com/", "Error", false⟩
          1).1 ≠ Status.WAITING := by
  decide

/-- C2: a frame without standard geometry whose body text matches the error
pattern is always classified `FATAL`; a frame with standard geometry
(width > 150 and height ≥ 50) is never classified `FATAL`, whatever its
body text and URL. -/
theorem c2_error_text_fatal (m1 m2 : FrameMetrics) (s1 s2 : Nat)
    (h1 : ¬(150 < m1.width ∧ 50 ≤ m1.height))
    (h2 : errorTextSignal m1.bodyText = true)
    (h3 : 150 < m2.width ∧ 50 ≤ m2.height) :
    (getFrameStatus m1 s1).1 = Status.FATAL ∧
      (getFrameStatus m2 s2).1 ≠ Status.FATAL := by
  constructor
  · have hstd : (decide (150 < m1.width) && decide (50 ≤ m1.height)) = false := by
      rcases not_and_or.mp h1 with ha | hb
      · simp [ha]
      · simp [hb]
    cases hu : urlFailureSignal m1.href <;>
      simp [getFrameStatus, hstd, hu, h2]
  · have hstd : (decide (150 < m2.width) && decide (50 ≤ m2.height)) = true := by
      simp [h3.1, h3.2]
    have hdim : ¬(m2.width < 50 ∨ m2.height < 50) := by omega
    simp [getFrameStatus, hstd, hdim]

/-- Witness for C2 at a 0×0 frame showing "400 Bad Request" and a 300×65
frame showing the same text. -/
theorem c2_error_text_fatal_witness :
    (getFrameStatus ⟨0, 0, "u", "400 Bad Request", false⟩ 0).1 =
        Status.FATAL ∧
      (getFrameStatus ⟨300, 65, "u", "400 Bad Request", false⟩ 0).1 ≠
        Status.FATAL :=
  c2_error_text_fatal _ _ 0 0 (by decide) (by decide) (by decide)

/-- C3 counterexample: with the counter at 5, a 0×0 frame that matches a
content indicator is classified `READY` but the counter stays 5 (the claim
says it is reset to 0), and a benign 100×60 frame — whose geometry is not
standard — still resets the counter to 0 (the claim says only
width > 150 ∧ height ≥ 50 resets). -/
theorem c3_reset_counterexample :
    ((⟨0, 0, "https://challenges.cloudflare.com/", "", true⟩ :
          FrameMetrics).width < 50 ∧
        (⟨0, 0, "https://challenges.cloudflare.com/", "", true⟩ :
          FrameMetrics).hasContent = true ∧
        getFrameStatus ⟨0, 0, "https://challenges.cloudflare.com/", "", true⟩
            5 = (Status.READY, 5)) ∧
      (¬(150 < (⟨100, 60, "https://challenges.cloudflare.com/", "", false⟩ :
            FrameMetrics).width ∧
          50 ≤ (⟨100, 60, "https://challenges.cloudflare.com/", "", false⟩ :
            FrameMetrics).height) ∧
        getFrameStatus
            ⟨100, 60, "https://challenges.cloudflare.com/", "", false⟩ 5 =
          (Status.READY, 0)) := by
  decide

/-- C3 (amended): starting from a non-zero counter, a classification call
resets the stabilization counter to 0 exactly when it does not return
`FATAL` and the geometry satisfies width ≥ 50 and height ≥ 50; and a tiny
frame matching a content indicator leaves the counter unchanged. -/
theorem c3_reset_characterization (m : FrameMetrics) (stab : Nat)
    (h : 0 < stab) :
    ((getFrameStatus m stab).2 = 0 ↔
      ((getFrameStatus m stab).1 ≠ Status.FATAL ∧ 50 ≤ m.width ∧
        50 ≤ m.height)) ∧
      ((m.width < 50 ∨ m.height < 50) → m.hasContent = true →
        (getFrameStatus m stab).2 = stab) := by
  unfold getFrameStatus
  simp only []
  split_ifs <;> simp_all <;> omega

/-- Witness for C3's amended theorem at a 300×65 frame with counter 5. -/
theorem c3_reset_characterization_witness :
    ((getFrameStatus ⟨300, 65, "u", "", false⟩ 5).2 = 0 ↔
      ((getFrameStatus ⟨300, 65, "u", "", false⟩ 5).1 ≠ Status.FATAL ∧
        50 ≤ (⟨300, 65, "u", "", false⟩ : FrameMetrics).width ∧
        50 ≤ (⟨300, 65, "u", "", false⟩ : FrameMetrics).height)) ∧
      (((⟨300, 65, "u", "", false⟩ : FrameMetrics).width < 50 ∨
          (⟨300, 65, "u", "", false⟩ : FrameMetrics).height < 50) →
        (⟨300, 65, "u", "", false⟩ : FrameMetrics).hasContent = true →
        (getFrameStatus ⟨300, 65, "u", "", false⟩ 5).2 = 5) :=
  c3_reset_characterization _ 5 (by decide)

end TurnstileSolver

/-! ## Theorems: attempt budget of the solve loop (C9) -/

namespace TurnstileSolver

lemma solve_attempts_le (env : CheckEnv) (st : TSolverState) :
    (solve env st).attempts ≤ st.attempts + 1 := by
  unfold solve
  split_ifs <;> simp

lemma check_attempts_le (env : CheckEnv) (st : TSolverState)
    (h : st.attempts ≤ maxAttempts) :
    ((check env st).1).attempts ≤ maxAttempts := by
  unfold check
  split_ifs
  · exact h
  · exact h
  rcases hgs : getFrameStatus env.metrics st.stabilizationAttempts with
    ⟨status, stab2⟩
  cases status <;> simp only []
  · -- WAITING
    exact h
  · -- READY: the solve branch only runs when the budget is not exhausted
    split_ifs with hcond
    · have hlt : st.attempts < maxAttempts := by
        have := hcond
        simp only [Bool.and_eq_true, decide_eq_true_eq] at this
        exact this.2
      exact le_trans (solve_attempts_le env _) hlt
    · exact h
  · -- FATAL
    exact h

lemma runChecks_attempts_le (envs : List CheckEnv) (st : TSolverState)
    (h : st.attempts ≤ maxAttempts) :
    (runChecks envs st).attempts ≤ maxAttempts := by
  induction envs generalizing st with
  | nil => exact h
  | cons e es ih => exact ih _ (check_attempts_le e st h)

/-- C9: over any sequence of poll ticks on one widget instance the attempt
counter never exceeds `maxAttempts` (the only increment sits behind the
`attempts < maxAttempts` guard of `check`), and once the budget is
exhausted a tick invokes no solve action and leaves the counter in
place. -/
theorem c9_attempt_budget (envs : List CheckEnv) (env : CheckEnv)
    (st : TSolverState) (h : maxAttempts ≤ st.attempts) :
    (runChecks envs initSolver).attempts ≤ maxAttempts ∧
      (check env st).2 = false ∧
      ((check env st).1).attempts = st.attempts := by
  refine ⟨runChecks_attempts_le envs initSolver (by simp [initSolver]), ?_⟩
  unfold check
  split_ifs
  · exact ⟨rfl, rfl⟩
  · exact ⟨rfl, rfl⟩
  rcases hgs : getFrameStatus env.metrics st.stabilizationAttempts with
    ⟨status, stab2⟩
  have hnlt : (st.attempts < maxAttempts) = False := by
    simp only [eq_iff_iff, iff_false, not_lt]
    exact h
  cases status <;> simp [hnlt]

/-- Witness for C9 at an exhausted solver on a ready frame. -/
theorem c9_attempt_budget_witness :
    (runChecks [] initSolver).attempts ≤ maxAttempts ∧
      (check ⟨true, true, ⟨300, 65, "u", "", false⟩, false, false⟩
          ⟨30, false, true, 0, false⟩).2 = false ∧
      ((check ⟨true, true, ⟨300, 65, "u", "", false⟩, false, false⟩
          ⟨30, false, true, 0, false⟩).1).attempts =
        (⟨30, false, true, 0, false⟩ : TSolverState).attempts :=
  c9_attempt_budget [] ⟨true, true, ⟨300, 65, "u", "", false⟩, false, false⟩
    ⟨30, false, true, 0, false⟩ (by decide)

end TurnstileSolver

/-! ## Theorems: target locator (C8) -/

namespace TurnstileSolver

lemma queryVisible_crossOriginDoc (selectors : List Nat) :
    queryVisible selectors crossOriginDoc = none := by
  induction selectors with
  | nil => rfl
  | cons s rest ih =>
    simp only [queryVisible, queryList, queryEl, crossOriginDoc]
    simpa [crossOriginDoc] using ih

/-- C8: a visible matching leaf element reachable only through two nested
shadow roots is still returned by `findTarget`, and a document whose only
content sits behind an unreadable cross-origin iframe yields `none`
(`NotFound`) — the cross-origin failure is swallowed, never raised. -/
theorem c8_locator (sel : Nat) (tsels : List Nat) (selectors : List Nat)
    (h : tsels.contains sel = true) :
    findTarget [sel] (twoDeepShadowDoc (El.mk tsels true false [] false false
        [] [])) = some (El.mk tsels true false [] false false [] []) ∧
      findTarget selectors crossOriginDoc = none := by
  constructor
  · have hm : sel ∈ tsels := by simpa using h
    simp [findTarget, twoDeepShadowDoc, shadowHost, queryVisible, queryList,
      queryEl, findInShadow, hm, El.visible]
  · have hq := queryVisible_crossOriginDoc selectors
    simp only [crossOriginDoc] at hq
    simp [findTarget, crossOriginDoc, hq, findInShadow, collectIframes,
      searchIframes]

/-- Witness for C8, with selector 3 matched only by the doubly
shadow-nested element and an arbitrary selector list for the cross-origin
document. -/
theorem c8_locator_witness :
    findTarget [3] (twoDeepShadowDoc (El.mk [3] true false [] false false []
        [])) = some (El.mk [3] true false [] false false [] []) ∧
      findTarget [1, 2] crossOriginDoc = none :=
  c8_locator 3 [3] [1, 2] (by decide)

end TurnstileSolver

/-! ## Theorems: answer normalization (C5) -/

lemma string_mk_toList (s : String) : String.mk s.toList = s := rfl

lemma string_join_singleton (x : String) : String.join [x] = x := by
  obtain ⟨d⟩ := x
  show String.mk ([] ++ d) = String.mk d
  rw [List.nil_append]

lemma isDigit_not_whitespace (c : Char) (h : c.isDigit = true) :
    c.isWhitespace = false := by
  by_cases hw : c.isWhitespace = true
  · exfalso
    simp only [Char.isWhitespace, Bool.or_eq_true, decide_eq_true_eq] at hw
    rcases hw with ((h1 | h1) | h1) | h1 <;> subst h1 <;>
      exact absurd h (by decide)
  · simpa using hw

lemma isDigit_not_punct (c : Char) (h : c.isDigit = true) :
    c ∉ punctChars := by
  intro hmem
  fin_cases hmem <;> exact absurd h (by decide)

lemma wsTokensAux_no_ws (l : List Char)
    (hl : ∀ c ∈ l, c.isWhitespace = false) :
    ∀ acc : List Char, wsTokensAux l acc =
      if acc.reverse ++ l = [] then [] else [acc.reverse ++ l] := by
  induction l with
  | nil =>
    intro acc
    by_cases ha : acc = [] <;> simp [wsTokensAux, ha]
  | cons c cs ih =>
    intro acc
    have hc : c.isWhitespace = false := hl c (by simp)
    have hcs : ∀ x ∈ cs, x.isWhitespace = false := fun x hx =>
      hl x (by simp [hx])
    have hstep : wsTokensAux (c :: cs) acc = wsTokensAux cs (c :: acc) := by
      simp [wsTokensAux, hc]
    rw [hstep, ih hcs (c :: acc)]
    have hrw : (c :: acc).reverse ++ cs = acc.reverse ++ c :: cs := by
      simp
    rw [hrw]

namespace TranslationService

lemma isDigitToken_chars (s : String) (h : isDigitToken s = true) :
    ∀ c ∈ s.toList, c.isDigit = true := by
  have h2 := h
  simp only [isDigitToken, Bool.and_eq_true, List.all_eq_true] at h2
  exact fun c hc => h2.2 c hc

lemma isDigitToken_ne_nil (s : String) (h : isDigitToken s = true) :
    s.toList ≠ [] := by
  intro hnil
  simp only [isDigitToken, Bool.and_eq_true] at h
  rw [hnil] at h
  exact absurd h.1 (by decide)

lemma splitWs_digit (s : String) (h : isDigitToken s = true) :
    splitWs s = [s] := by
  have hne : s.toList ≠ [] := isDigitToken_ne_nil s h
  have hs : s ≠ "" := by
    intro he
    rw [he] at hne
    exact hne rfl
  have hws : ∀ c ∈ s.toList, c.isWhitespace = false := fun c hc =>
    isDigit_not_whitespace c (isDigitToken_chars s h c hc)
  unfold splitWs
  rw [if_neg hs, wsTokensAux_no_ws s.toList hws []]
  have hne2 : List.reverse ([] : List Char) ++ s.toList ≠ [] := by
    simpa using hne
  rw [if_neg hne2]
  rfl

lemma cleanToken_digit (s : String)
    (hall : ∀ c ∈ s.toList, c.isDigit = true) : cleanToken s = s := by
  unfold cleanToken
  have hkeep : ∀ c ∈ s.toList, (!(decide (c ∈ punctChars))) = true := by
    intro c hc
    simp [isDigit_not_punct c (hall c hc)]
  rw [List.filter_eq_self.mpr hkeep, string_mk_toList]

lemma lookup_of_no_digit_key (c : String) (map : List (String × String))
    (hmap : ∀ p ∈ map, isDigitToken p.1 = false)
    (hc : isDigitToken c = true) : List.lookup c map = none := by
  induction map with
  | nil => rfl
  | cons p t ih =>
    obtain ⟨k, v⟩ := p
    have hpc : (c == k) = false := by
      by_cases hck : c = k
      · exfalso
        have hp := hmap (k, v) (by simp)
        rw [← hck] at hp
        rw [hc] at hp
        exact absurd hp (by simp)
      · simpa using hck
    simp only [List.lookup, hpc]
    exact ih fun q hq => hmap q (by simp [hq])

lemma numberMap_keys_not_digit :
    ∀ p ∈ NUMBER_MAP, isDigitToken p.1 = false := by
  decide

lemma translateToken_digit (s : String) (h : isDigitToken s = true) :
    translateToken s = s := by
  unfold translateToken
  rw [cleanToken_digit s (isDigitToken_chars s h)]
  show (List.lookup s NUMBER_MAP).getD s = s
  rw [lookup_of_no_digit_key s NUMBER_MAP numberMap_keys_not_digit h]
  rfl

lemma normalize_eq_normalizeSpec (s : String) :
    normalize s = normalizeSpec s := by
  unfold normalize normalizeSpec
  by_cases h0 : s = ""
  · simp [h0]
  · rw [if_neg h0, if_neg h0]
    simp only []
    by_cases hd : isDigitToken (jsTrim (jsToLower s)) = true
    · rw [if_pos hd, splitWs_digit _ hd]
      simp [translateToken_digit _ hd, hd, string_join_singleton]
    · rw [if_neg hd]

end TranslationService

/-- C5: `normalize` coincides on every input with the spec's pipeline
(lower-case, whitespace tokenization, per-token punctuation stripping and
spoken-digit translation, digit concatenation when all tokens became
digits, space join otherwise), and the concrete examples hold: pure-digit
input is idempotent, "eight five" becomes "85", and mixed-locale digit
words are resolved token by token. -/
theorem c5_normalize (s : String) :
    TranslationService.normalize s = TranslationService.normalizeSpec s ∧
      TranslationService.normalize "85" = "85" ∧
      TranslationService.normalize "eight five" = "85" ∧
      TranslationService.normalize "acht fünf" = "85" ∧
      TranslationService.normalize "acht five" = "85" :=
  ⟨TranslationService.normalize_eq_normalizeSpec s, by decide, by decide,
   by decide, by decide⟩

/-! ## Theorems: Wit.ai retry policy (C7) -/

namespace WitClient

lemma transcribeGo_calls_le (oracle : Nat → FetchResult) :
    ∀ n attempt, (transcribeGo oracle attempt n).2.1 ≤ n := by
  intro n
  induction n with
  | zero => intro attempt; simp [transcribeGo]
  | succ k ih =>
    intro attempt
    unfold transcribeGo
    cases attemptOnce (oracle attempt) with
    | ok t => simp
    | error e =>
      cases k with
      | zero => simp
      | succ r =>
        simp only []
        have := ih (attempt + 1)
        omega

end WitClient

lemma transcribe_all_fail (oracle : Nat → FetchResult) (e1 e2 e3 : String)
    (h1 : WitClient.attemptOnce (oracle 1) = .error e1)
    (h2 : WitClient.attemptOnce (oracle 2) = .error e2)
    (h3 : WitClient.attemptOnce (oracle 3) = .error e3) :
    WitClient.transcribe oracle =
      (.error (WitClient.exhaustMsg e3), 3, [1000, 2000]) := by
  show WitClient.transcribeGo oracle 1 3 = _
  rw [show (3 : Nat) = 2 + 1 from rfl, WitClient.transcribeGo, h1]
  simp only []
  rw [show (1 + 1 : Nat) = 2 from rfl]
  rw [show (2 : Nat) = 1 + 1 from rfl, WitClient.transcribeGo, h2]
  simp only []
  rw [show (2 + 1 : Nat) = 3 from rfl]
  rw [show (1 : Nat) = 0 + 1 from rfl, WitClient.transcribeGo, h3]
  simp only []
  norm_num [CONFIG.retryDelay]

/-- C7: the speech client issues at most `CONFIG.maxRetries` (= 3) fetches;
and when every attempt fails (non-2xx status, network error, or no usable
text in the body) it issues exactly 3, sleeps the linear backoff sequence
`retryDelay * 1, retryDelay * 2` between attempts, and ends by raising a
transcription error. -/
theorem c7_retry_policy (oracle oracle2 : Nat → FetchResult)
    (h : ∀ i, 1 ≤ i → i ≤ CONFIG.maxRetries →
      ∃ e, WitClient.attemptOnce (oracle i) = .error e) :
    (WitClient.transcribe oracle2).2.1 ≤ CONFIG.maxRetries ∧
      (∃ msg, (WitClient.transcribe oracle).1 = .error msg) ∧
      (WitClient.transcribe oracle).2.1 = CONFIG.maxRetries ∧
      (WitClient.transcribe oracle).2.2 =
        [CONFIG.retryDelay * 1, CONFIG.retryDelay * 2] := by
  obtain ⟨e1, h1⟩ := h 1 (by decide) (by decide)
  obtain ⟨e2, h2⟩ := h 2 (by decide) (by decide)
  obtain ⟨e3, h3⟩ := h 3 (by decide) (by decide)
  have ht := transcribe_all_fail oracle e1 e2 e3 h1 h2 h3
  exact ⟨WitClient.transcribeGo_calls_le oracle2 CONFIG.maxRetries 1,
    ⟨WitClient.exhaustMsg e3, by rw [ht]⟩, by rw [ht]; rfl,
    by rw [ht]; rfl⟩

/-- Witness for C7 with an oracle whose every fetch fails with a network
error. -/
theorem c7_retry_policy_witness :
    (WitClient.transcribe fun _ => FetchResult.netError "down").2.1 ≤
        CONFIG.maxRetries ∧
      (∃ msg, (WitClient.transcribe fun _ =>
        FetchResult.netError "down").1 = .error msg) ∧
      (WitClient.transcribe fun _ => FetchResult.netError "down").2.1 =
        CONFIG.maxRetries ∧
      (WitClient.transcribe fun _ => FetchResult.netError "down").2.2 =
        [CONFIG.retryDelay * 1, CONFIG.retryDelay * 2] :=
  c7_retry_policy (fun _ => FetchResult.netError "down")
    (fun _ => FetchResult.netError "down")
    (fun _ _ _ => ⟨"down", rfl⟩)

/-! ## Theorems: audio validation gate (C6) -/

/-- C6: a buffer below the minimum size (100 bytes) makes the pipeline
raise a validation error with zero speech-API fetches issued; and any
buffer of at least the minimum size passes validation — an unrecognized
audio-container header alone never causes rejection. -/
theorem c6_validation_gate (bytes big : List Nat) (now : Nat)
    (oracle : Nat → FetchResult) (st : CacheState)
    (hsmall : bytes.length < CONFIG.minAudioSize)
    (hbig : CONFIG.minAudioSize ≤ big.length) :
    (∃ e, (processAudioPipeline bytes now oracle st).1 = .error e) ∧
      (processAudioPipeline bytes now oracle st).2.2 = 0 ∧
      AudioValidator.validate big = .ok () := by
  have hv : ∃ e, AudioValidator.validate bytes = .error e := by
    unfold AudioValidator.validate
    split_ifs with hz
    · exact ⟨_, rfl⟩
    · exact ⟨_, rfl⟩
  obtain ⟨e, he⟩ := hv
  refine ⟨⟨e, ?_⟩, ?_, ?_⟩
  · unfold processAudioPipeline
    rw [he]
  · unfold processAudioPipeline
    rw [he]
  · have hpos : 0 < CONFIG.minAudioSize := by decide
    have h0 : ¬big.length = 0 := by omega
    have h1 : ¬big.length < CONFIG.minAudioSize := by omega
    unfold AudioValidator.validate
    rw [if_neg h0, if_neg h1]

/-- Witness for C6 with a 50-byte buffer and a 100-byte buffer whose header
is not a recognized MP3 header. -/
theorem c6_validation_gate_witness :
    (∃ e, (processAudioPipeline (List.replicate 50 7) 0
        (fun _ => FetchResult.netError "down") ⟨[], []⟩).1 = .error e) ∧
      (processAudioPipeline (List.replicate 50 7) 0
        (fun _ => FetchResult.netError "down") ⟨[], []⟩).2.2 = 0 ∧
      AudioValidator.validate (List.replicate 100 1) = .ok () :=
  c6_validation_gate (List.replicate 50 7) (List.replicate 100 1) 0
    (fun _ => FetchResult.netError "down") ⟨[], []⟩ (by decide) (by decide)

/-! ## Theorems: content-addressed caching (C4, C10) -/

lemma lookup_append_of_keys_ne (l : List (Digest × CacheEntry)) (k : Digest)
    (v : CacheEntry) (hl : ∀ p ∈ l, (p.1 == k) = false) :
    List.lookup k (l ++ [(k, v)]) = some v := by
  induction l with
  | nil => simp [List.lookup]
  | cons p t ih =>
    obtain ⟨k1, v1⟩ := p
    have h1 : (k1 == k) = false := hl (k1, v1) (by simp)
    have h2 : (k == k1) = false := by
      by_cases hk : k = k1
      · rw [hk] at h1
        simp at h1
      · simpa using hk
    simp only [List.cons_append, List.lookup, h2]
    exact ih fun q hq => hl q (by simp [hq])

lemma filter_keys_ne (mem : List (Digest × CacheEntry)) (k : Digest) :
    ∀ p ∈ mem.filter (fun q => !(q.1 == k)), (p.1 == k) = false := by
  intro p hp
  have := List.mem_filter.mp hp
  simpa using this.2

lemma memSet_lookup (k : Digest) (v : CacheEntry)
    (mem : List (Digest × CacheEntry)) :
    List.lookup k (MemoryCache.set k v mem) = some v := by
  unfold MemoryCache.set
  simp only []
  apply lookup_append_of_keys_ne
  intro p hp
  by_cases hlen : CONFIG.maxMemoryCacheSize ≤
      (mem.filter (fun q => !(q.1 == k))).length
  · rw [if_pos hlen] at hp
    exact filter_keys_ne mem k p
      ((List.tail_sublist (mem.filter fun q => !(q.1 == k))).subset hp)
  · rw [if_neg hlen] at hp
    exact filter_keys_ne mem k p hp

lemma cacheGet_some_mem (hash : Digest) (now : Nat) (st : CacheState)
    (c : String) (stg : CacheState)
    (h : CacheService.get hash now st = (some c, stg)) :
    ∃ entry : CacheEntry,
      List.lookup hash stg.mem = some entry ∧ entry.text = c := by
  unfold CacheService.get MemoryCache.get at h
  rcases hml : List.lookup hash st.mem with _ | v
  · rw [hml] at h
    simp only [] at h
    rcases hsl : List.lookup hash st.storage with _ | entry
    · rw [hsl] at h
      simp only [] at h
      injection h with hc hstg
      exact Option.noConfusion hc
    · rw [hsl] at h
      simp only [] at h
      by_cases hfresh : now - entry.timestamp < CONFIG.cacheExpiration
      · rw [if_pos hfresh] at h
        injection h with hc hstg
        injection hc with hc2
        refine ⟨entry, ?_, hc2⟩
        rw [← hstg]
        exact memSet_lookup hash entry st.mem
      · rw [if_neg hfresh] at h
        injection h with hc hstg
        exact Option.noConfusion hc
  · rw [hml] at h
    simp only [] at h
    injection h with hc hstg
    injection hc with hc2
    refine ⟨v, ?_, hc2⟩
    rw [← hstg]
    exact lookup_append_of_keys_ne _ hash v (filter_keys_ne st.mem hash)

lemma pipelineApiPath_ok_spec (hash : Digest) (now : Nat)
    (oracle : Nat → FetchResult) (stg : CacheState) (t : String)
    (src2 : TranscriptSource) (st1 : CacheState) (calls : Nat)
    (h : pipelineApiPath hash now oracle stg = (.ok ⟨t, src2⟩, st1, calls)) :
    0 < t.length ∧
      ∃ entry : CacheEntry,
        List.lookup hash st1.mem = some entry ∧ entry.text = t := by
  unfold pipelineApiPath at h
  rcases hw : WitClient.transcribe oracle with ⟨res, wc, wd⟩
  rw [hw] at h
  rcases res with we | raw
  · simp only [] at h
    injection h with h1 h2
    exact Except.noConfusion h1
  · simp only [] at h
    by_cases hraw : raw.length = 0
    · rw [if_pos hraw] at h
      injection h with h1 h2
      exact Except.noConfusion h1
    · rw [if_neg hraw] at h
      by_cases hfin : (TranslationService.normalize raw).length = 0
      · rw [if_pos hfin] at h
        injection h with h1 h2
        exact Except.noConfusion h1
      · rw [if_neg hfin] at h
        injection h with h1 h2
        injection h2 with h2a h2b
        injection h1 with h1a
        obtain ⟨hta, hsa⟩ := PipelineOk.mk.inj h1a
        subst hta
        refine ⟨by omega, ?_⟩
        rw [← h2a]
        unfold CacheService.set
        rw [if_neg hfin]
        exact ⟨⟨TranslationService.normalize raw, now⟩,
          memSet_lookup hash _ stg.mem, rfl⟩

lemma pipeline_ok_spec (bytes : List Nat) (now : Nat)
    (oracle : Nat → FetchResult) (st : CacheState) (t : String)
    (src2 : TranscriptSource) (st1 : CacheState) (calls : Nat)
    (h : processAudioPipeline bytes now oracle st =
      (.ok ⟨t, src2⟩, st1, calls)) :
    (∃ v, AudioValidator.validate bytes = .ok v) ∧ 0 < t.length ∧
      ∃ entry : CacheEntry,
        List.lookup (generateHash bytes) st1.mem = some entry ∧
        entry.text = t := by
  unfold processAudioPipeline at h
  rcases hval : AudioValidator.validate bytes with e | u
  · rw [hval] at h
    simp only [] at h
    injection h with h1 h2
    exact Except.noConfusion h1
  · rw [hval] at h
    simp only [] at h
    refine ⟨⟨u, rfl⟩, ?_⟩
    rcases hget : CacheService.get (generateHash bytes) now st with ⟨cres, stg⟩
    rw [hget] at h
    rcases cres with _ | c
    · simp only [] at h
      exact pipelineApiPath_ok_spec _ now oracle stg t src2 st1 calls h
    · simp only [] at h
      by_cases hc : 0 < c.length
      · rw [if_pos hc] at h
        injection h with h1 h2
        injection h2 with h2a h2b
        injection h1 with h1a
        obtain ⟨hta, hsa⟩ := PipelineOk.mk.inj h1a
        subst hta
        subst h2a
        obtain ⟨entry, he1, he2⟩ :=
          cacheGet_some_mem (generateHash bytes) now st _ _ hget
        exact ⟨hc, entry, he1, he2⟩
      · rw [if_neg hc] at h
        exact pipelineApiPath_ok_spec _ now oracle stg t src2 st1 calls h

/-- C4: once a transcription of some audio bytes has succeeded, running the
pipeline again on byte-identical content returns the transcript cached
under the content digest with zero speech-API fetches — whatever the
clock or the speech API does on the second run (the digest is a function
of the bytes alone; no challenge or session identifier enters the cache
key). -/
theorem c4_cache_reuse (bytes : List Nat) (now now2 : Nat)
    (oracle oracle2 : Nat → FetchResult) (st st1 : CacheState) (t : String)
    (src2 : TranscriptSource) (calls : Nat)
    (h : processAudioPipeline bytes now oracle st =
      (.ok ⟨t, src2⟩, st1, calls)) :
    ∃ st2, processAudioPipeline bytes now2 oracle2 st1 =
      (.ok ⟨t, TranscriptSource.cache⟩, st2, 0) := by
  obtain ⟨⟨v, hval⟩, htlen, entry, hlook, htext⟩ :=
    pipeline_ok_spec bytes now oracle st t src2 st1 calls h
  refine ⟨⟨st1.mem.filter (fun p => !(p.1 == generateHash bytes)) ++
    [(generateHash bytes, entry)], st1.storage⟩, ?_⟩
  unfold processAudioPipeline
  rw [hval]
  simp only []
  have hget : CacheService.get (generateHash bytes) now2 st1 =
      (some entry.text,
        ⟨st1.mem.filter (fun p => !(p.1 == generateHash bytes)) ++
          [(generateHash bytes, entry)], st1.storage⟩) := by
    unfold CacheService.get MemoryCache.get
    rw [hlook]
  rw [hget]
  simp only []
  rw [htext, if_pos htlen]

/-- C10: every `transcribe` response the background responder answers with
`success := true` carries a non-empty transcript: empty normalization
results are raised as errors on the API path and empty cached strings are
treated as misses, so no success path can produce empty text. -/
theorem c10_success_nonempty (hasAudioUrl : Bool) (witAiToken : Option String)
    (bytes : List Nat) (now : Nat) (oracle : Nat → FetchResult)
    (st : CacheState)
    (h : (onMessageTranscribe hasAudioUrl witAiToken bytes now oracle
        st).1.success = true) :
    ∃ t, (onMessageTranscribe hasAudioUrl witAiToken bytes now oracle
        st).1.text = some t ∧ 0 < t.length := by
  unfold onMessageTranscribe at h ⊢
  cases hasAudioUrl with
  | false => simp at h
  | true =>
    simp only [Bool.not_true, Bool.false_eq_true, if_false] at h ⊢
    cases witAiToken with
    | none => simp at h
    | some tok =>
      simp only [] at h ⊢
      rcases hp : processAudioPipeline bytes now oracle st with ⟨res, st2, cnt⟩
      rw [hp] at h
      rcases res with e | r
      · exact Bool.noConfusion h
      · obtain ⟨rt, rs⟩ := r
        obtain ⟨hval, hlen, _⟩ :=
          pipeline_ok_spec bytes now oracle st rt rs st2 cnt hp
        exact ⟨rt, rfl, hlen⟩

/-- Witness for C4: a first transcription answered by the API, then a
byte-identical request at a later time, with the API down, served from the
cache with zero fetches. -/
theorem c4_cache_reuse_witness :
    ∃ st2, processAudioPipeline (List.replicate 100 0) 5
        (fun _ => FetchResult.netError "down")
        ⟨[(List.replicate 100 0, ⟨"85", 0⟩)],
         [(List.replicate 100 0, ⟨"85", 0⟩)]⟩ =
      (.ok ⟨"85", TranscriptSource.cache⟩, st2, 0) :=
  c4_cache_reuse (List.replicate 100 0) 0 5
    (fun _ => FetchResult.ok [WitChunk.json (some "eight five") true])
    (fun _ => FetchResult.netError "down") ⟨[], []⟩
    ⟨[(List.replicate 100 0, ⟨"85", 0⟩)],
     [(List.replicate 100 0, ⟨"85", 0⟩)]⟩
    "85" TranscriptSource.api 1 rfl

/-- Witness for C10 at a concrete successful transcription request. -/
theorem c10_success_nonempty_witness :
    ∃ t, (onMessageTranscribe true (some "tok") (List.replicate 100 0) 0
        (fun _ => FetchResult.ok [WitChunk.json (some "eight five") true])
        ⟨[], []⟩).1.text = some t ∧ 0 < t.length :=
  c10_success_nonempty true (some "tok") (List.replicate 100 0) 0
    (fun _ => FetchResult.ok [WitChunk.json (some "eight five") true])
    ⟨[], []⟩ (by decide)
